import Mathlib

/-!
Shallow embedding of the coco-promotions service (TypeScript) in Lean 4.

JavaScript numbers are modelled as exact rationals (`ℚ`); arithmetic whose
JS result is `NaN`/`undefined` (missing record keys, `0/0`, reading an
absent property) is modelled with `Option ℚ`, `none` standing for the
undefined value, propagated the way NaN propagates.  JS objects built by
key assignment are modelled as association lists with JS assignment
semantics (`rset`: update in place, else append).  Clock readings
(`Date.now()`, `new Date()`, `getHours()`) and `Math.random()` are passed
in explicitly as an environment.  Database reads are modelled as a store
snapshot providing the rows/aggregates the SQL queries return.
-/

namespace Coco

/-- Association list standing for a JS object: ordered key/value pairs. -/
abbrev AList (κ α : Type) := List (κ × α)

/-- JS property assignment `m[k] = v`: overwrite in place if the key is
present, otherwise append (insertion order preserved). -/
def rset [DecidableEq κ] : AList κ α → κ → α → AList κ α
  | [], k, v => [(k, v)]
  | (k0, v0) :: rest, k, v =>
      if k0 = k then (k, v) :: rest else (k0, v0) :: rset rest k v

/-- JS property read `m[k]`: `none` is `undefined`. -/
def rget [DecidableEq κ] : AList κ α → κ → Option α
  | [], _ => none
  | (k0, v0) :: rest, k => if k0 = k then some v0 else rget rest k

/-- `Object.values(m)`. -/
def rvalues (m : AList κ α) : List α := m.map (·.2)

/-- JS `x || 1.0` applied to a possibly-undefined number: `undefined` and
`0` are falsy and yield `1`. -/
def jsOrOne : Option ℚ → ℚ
  | none => 1
  | some v => if v = 0 then 1 else v

/-- JS division on possibly-undefined numbers; division by zero
(`0/0 = NaN`, `x/0 = ±Infinity`) is modelled as undefined. -/
def jsDiv : Option ℚ → Option ℚ → Option ℚ
  | some a, some b => if b = 0 then none else some (a / b)
  | _, _ => none

/-- One digit of `Number.prototype.toString(36)`. -/
def b36digit (d : Nat) : Char :=
  if d < 10 then Char.ofNat (48 + d) else Char.ofNat (87 + d)

/-- Fuelled base-36 digit expansion (fuel keeps the recursion structural,
so concrete values reduce definitionally). -/
def b36core : Nat → Nat → List Char → List Char
  | 0, _, acc => acc
  | fuel + 1, n, acc =>
      if n < 36 then b36digit n :: acc
      else b36core fuel (n / 36) (b36digit (n % 36) :: acc)

/-- `n.toString(36)` for a nonnegative integer. -/
def base36 (n : Nat) : String := String.mk (b36core (n + 1) n [])

/-- Whether `needle` is a leading segment of `hay` (character lists). -/
def leadingMatch : List Char → List Char → Bool
  | [], _ => true
  | _ :: _, [] => false
  | a :: as, b :: bs => a = b && leadingMatch as bs

/-- JS `hay.includes(needle)` on strings, as character lists. -/
def containsChars : List Char → List Char → Bool
  | [], needle => needle.isEmpty
  | c :: rest, needle => leadingMatch needle (c :: rest) || containsChars rest needle

/-- The nine wealth tiers (`WealthLevel` union type in the source). -/
inductive WealthLevel
  | foam | plankton | crab | fish | turtle | dolphin | shark | whale | giant_whale
deriving DecidableEq, Repr

/-- The string value each tier has at runtime. -/
def WealthLevel.str : WealthLevel → String
  | .foam => "foam"
  | .plankton => "plankton"
  | .crab => "crab"
  | .fish => "fish"
  | .turtle => "turtle"
  | .dolphin => "dolphin"
  | .shark => "shark"
  | .whale => "whale"
  | .giant_whale => "giant_whale"

/-- The ten action types (`ActionType` union type in the source). -/
inductive ActionType
  | view | like | unlike | share | comment | unlock
  | promo_view | promo_click | promo_comment | follow
deriving DecidableEq, Repr

/-- `basePrices` table of `calculateDynamicPricing` (COCO integer units). -/
def basePrices : ActionType → ℚ
  | .view => 1
  | .like => 2
  | .unlike => 1
  | .share => 6
  | .comment => 8
  | .unlock => 15
  | .promo_view => 1
  | .promo_click => 5
  | .promo_comment => 10
  | .follow => 12

/-- `wealthMultipliers` table of `calculateDynamicPricing`. -/
def wealthMultipliers : WealthLevel → ℚ
  | .foam => 1/2
  | .plankton => 1
  | .crab => 3/2
  | .fish => 2
  | .turtle => 3
  | .dolphin => 5
  | .shark => 8
  | .whale => 12
  | .giant_whale => 20

/-- `regionMultipliers[region] || regionMultipliers['default']` in
`calculateDemandMultipliers`. -/
def regionMultiplier (region : String) : ℚ :=
  if region = "CN" then 6/5
  else if region = "US" then 3/2
  else if region = "EU" then 13/10
  else 1

/-- `calculateDemandMultipliers(timeOfDay, region)`: the object literal
`{business_hours, evening, weekend, [region]}` built in order; `isWeekend()`
reads the clock, so the weekend flag is a parameter. -/
def calculateDemandMultipliers (timeOfDay : Nat) (weekend : Bool) (region : String) :
    AList String ℚ :=
  rset (rset (rset (rset []
    "business_hours" (if 9 ≤ timeOfDay ∧ timeOfDay ≤ 18 then 3/2 else 1))
    "evening" (if 19 ≤ timeOfDay ∧ timeOfDay ≤ 23 then 13/10 else 1))
    "weekend" (if weekend then 4/5 else 1))
    region (regionMultiplier region)

/-- `getQualityTier(quality)`. -/
def getQualityTier (quality : ℚ) : String :=
  if 90 ≤ quality then "premium"
  else if 75 ≤ quality then "high"
  else if 60 ≤ quality then "medium"
  else "low"

/-- `calculateQualityDiscounts(contentQuality)`: note the returned object
holds a single key, the tier of the strategy's own content quality. -/
def calculateQualityDiscounts (contentQuality : ℚ) : AList String ℚ :=
  if 90 ≤ contentQuality then [("premium", 7/10)]
  else if 75 ≤ contentQuality then [("high", 4/5)]
  else if 60 ≤ contentQuality then [("medium", 9/10)]
  else [("low", 6/5)]

/-- The discount value assigned to each quality tier name. -/
def qualityDiscountOf (tier : String) : ℚ :=
  if tier = "premium" then 7/10
  else if tier = "high" then 4/5
  else if tier = "medium" then 9/10
  else 6/5

/-- `calculateRelevanceDiscount(relevanceScore)`. -/
def calculateRelevanceDiscount (relevanceScore : ℚ) : ℚ :=
  if 80 ≤ relevanceScore then 4/5
  else if 60 ≤ relevanceScore then 9/10
  else 11/10

/-- The `PricingStrategy` record returned by `calculateDynamicPricing`. -/
structure PricingStrategyRec where
  basePrices : ActionType → ℚ
  wealthMultipliers : WealthLevel → ℚ
  demandMultipliers : AList String ℚ
  qualityDiscounts : AList String ℚ

/-- `calculateDynamicPricing(targetWealthLevels, contentQuality, timeOfDay,
region)`; the weekend flag is the `isWeekend()` clock read. The
`targetWealthLevels` argument is unused by the source body. -/
def calculateDynamicPricing (_targetWealthLevels : List WealthLevel)
    (contentQuality : ℚ) (timeOfDay : Nat) (region : String) (weekend : Bool) :
    PricingStrategyRec :=
  { basePrices := basePrices
    wealthMultipliers := wealthMultipliers
    demandMultipliers := calculateDemandMultipliers timeOfDay weekend region
    qualityDiscounts := calculateQualityDiscounts contentQuality }

/-- `location` object of a `TargetUser`. -/
structure Location where
  country : String
  region : Option String
deriving DecidableEq

/-- The `TargetUser` interface of the source types. -/
structure TargetUser where
  userId : String
  wealthLevel : WealthLevel
  relevanceScore : ℚ
  engagementProbability : ℚ
  influenceMultiplier : ℚ
  location : Option Location

/-- `targetUser.location?.country || 'default'` (empty string is falsy). -/
def userCountryKey (u : TargetUser) : String :=
  match u.location with
  | some l => if l.country = "" then "default" else l.country
  | none => "default"

/-- `calculateActionPrice(action, targetUser, pricing, contentQuality)`:
the quality-discount lookup can miss (the strategy's record has one key),
in which case the JS product is `NaN`, modelled as `none`. -/
def calculateActionPrice (action : ActionType) (targetUser : TargetUser)
    (pricing : PricingStrategyRec) (contentQuality : ℚ) : Option ℤ :=
  let basePrice := pricing.basePrices action
  let wealthMultiplier := pricing.wealthMultipliers targetUser.wealthLevel
  let demandMultiplier := jsOrOne (rget pricing.demandMultipliers (userCountryKey targetUser))
  match rget pricing.qualityDiscounts (getQualityTier contentQuality) with
  | none => none
  | some qualityDiscount =>
      let relevanceDiscount := calculateRelevanceDiscount targetUser.relevanceScore
      some (Int.ceil (basePrice * wealthMultiplier * demandMultiplier *
        qualityDiscount * relevanceDiscount))

/-- `wealthLevelValues[level].conversionRate` in `calculateBudgetOptimization`. -/
def conversionRate : WealthLevel → ℚ
  | .giant_whale => 1/4
  | .whale => 1/5
  | .shark => 3/20
  | .dolphin => 3/25
  | .turtle => 2/25
  | .fish => 3/50
  | .crab => 1/25
  | .plankton => 3/100
  | .foam => 1/50

/-- `wealthLevelValues[level].averageValue` in `calculateBudgetOptimization`. -/
def averageValue : WealthLevel → ℚ
  | .giant_whale => 100
  | .whale => 80
  | .shark => 60
  | .dolphin => 40
  | .turtle => 20
  | .fish => 12
  | .crab => 8
  | .plankton => 5
  | .foam => 3

/-- `calculateAverageCost(wealthLevel)`. -/
def calculateAverageCost : WealthLevel → ℚ
  | .giant_whale => 50
  | .whale => 30
  | .shark => 20
  | .dolphin => 12
  | .turtle => 8
  | .fish => 5
  | .crab => 3
  | .plankton => 2
  | .foam => 1

/-- Per-tier expected ROI: `(conversionRate × averageValue) / cost`. -/
def levelROI (level : WealthLevel) : ℚ :=
  conversionRate level * averageValue level / calculateAverageCost level

/-- `calculateExpectedOutcome(allocations, wealthStats)`. -/
def calculateExpectedOutcome (allocations : AList WealthLevel ℚ) : ActionType → ℤ :=
  let expectedViews : ℚ :=
    allocations.foldl (fun sum p => sum + p.2 / calculateAverageCost p.1) 0
  fun a =>
    match a with
    | .view => Int.floor expectedViews
    | .like => Int.floor (expectedViews * (1/50))
    | .unlike => Int.floor (expectedViews * (1/200))
    | .share => Int.floor (expectedViews * (1/125))
    | .comment => Int.floor (expectedViews * (1/200))
    | .unlock => Int.floor (expectedViews * (1/1000))
    | .promo_view => Int.floor expectedViews
    | .promo_click => Int.floor (expectedViews * (3/100))
    | .promo_comment => Int.floor (expectedViews * (1/500))
    | .follow => Int.floor (expectedViews * (3/1000))

/-- `calculateEfficiencyScore(levelROIs)`: mean ROI × 20 capped at 100;
the mean of an empty list is `0/0 = NaN`. -/
def calculateEfficiencyScore (rois : List ℚ) : Option ℚ :=
  (jsDiv (some rois.sum) (some (rois.length : ℚ))).map (fun avg => min 100 (avg * 20))

/-- Result record of `calculateBudgetOptimization`. -/
structure BudgetOptimization where
  recommendedAllocation : AList WealthLevel ℚ
  expectedOutcome : ActionType → ℤ
  efficiencyScore : Option ℚ

/-- `calculateBudgetOptimization(totalBudget, targetWealthLevels,
expectedActions)`: allocations proportional to ROI, written into a record
by key assignment (duplicate tiers overwrite).  `expectedActions` is
unused by the source body. -/
def calculateBudgetOptimization (totalBudget : ℚ) (targetWealthLevels : List WealthLevel)
    (_expectedActions : AList String (Option ℚ)) : BudgetOptimization :=
  let levelROIs := targetWealthLevels.map (fun level => (level, levelROI level))
  let totalROI := (levelROIs.map (·.2)).sum
  let alloc := levelROIs.map (fun p => (p.1, p.2 / totalROI * totalBudget))
  let recommendedAllocation := alloc.foldl (fun m p => rset m p.1 p.2) []
  { recommendedAllocation := recommendedAllocation
    expectedOutcome := calculateExpectedOutcome recommendedAllocation
    efficiencyScore := calculateEfficiencyScore (levelROIs.map (·.2)) }

/-! ## TargetingEngine (`targeting-engine.service.ts`) -/

/-- A row of `queryCandidatesInFramework` (snake_case SQL columns, with
`Number(x) || 0` boundary coercions applied to the aggregates). -/
structure Candidate where
  userId : String
  countryCode : Option String
  region : Option String
  wealthLevel : WealthLevel
  followersCount : ℚ
  recentActivity : ℚ
  avgEngagement : ℚ
deriving DecidableEq

/-- A content row as seen by the targeting engine and the optimizer.
`imagesRaw` is the raw JSON string column (`none` for SQL NULL);
`imagesLen` is the length of the JSON-parsed array of `imagesRaw` (the
parse itself happens at the store boundary).  `targetWealthLevels` is the
`parseTargetLevels` result: `none` when the column is null/undefined/empty
string (falsy), `some levels` otherwise (`some []` covers an empty or
unparseable array, which the source also turns into `[]`). -/
structure Content where
  likes : ℚ
  replies : ℚ
  shares : ℚ
  text : String
  imagesRaw : Option String
  imagesLen : Nat
  targetWealthLevels : Option (List WealthLevel)
  location : Option Location
deriving DecidableEq

/-- `getUserSophistication(wealthLevel)`. -/
def getUserSophistication : WealthLevel → ℚ
  | .foam => 10
  | .plankton => 20
  | .crab => 30
  | .fish => 40
  | .turtle => 50
  | .dolphin => 70
  | .shark => 85
  | .whale => 95
  | .giant_whale => 100

/-- `getWealthLevelValue`'s `valueMap`, as the string-keyed lookup it is at
runtime (`valueMap[key]`, `undefined` when the key misses or is itself
`undefined`). -/
def valueMapLookup : Option String → Option ℚ
  | some "foam" => some (1/2)
  | some "plankton" => some 1
  | some "crab" => some (3/2)
  | some "fish" => some 2
  | some "turtle" => some 3
  | some "dolphin" => some 5
  | some "shark" => some 8
  | some "whale" => some 12
  | some "giant_whale" => some 20
  | _ => none

/-- The intended tier value table (same numbers), totalized over the typed
tier — used to state what the spec says the composite ranking value is. -/
def getWealthLevelValue : WealthLevel → ℚ
  | .foam => 1/2
  | .plankton => 1
  | .crab => 3/2
  | .fish => 2
  | .turtle => 3
  | .dolphin => 5
  | .shark => 8
  | .whale => 12
  | .giant_whale => 20

/-- `assessContentComplexity(content)`: `content.likes || 1` makes zero
likes count as 1 before the `Math.max`. -/
def assessContentComplexity (content : Content) : ℚ :=
  let textLength : ℚ := content.text.length
  let interactionDepth :=
    content.replies / max 1 (if content.likes = 0 then 1 else content.likes)
  min 100 (textLength / 10 + interactionDepth * 20)

/-- `calculateWealthMatch(content, user)` (reads the row's snake_case
`wealth_level`, which is present). -/
def calculateWealthMatch (content : Content) (user : Candidate) : ℚ :=
  match content.targetWealthLevels with
  | some targetLevels =>
      if user.wealthLevel ∈ targetLevels then 1 else 3/10
  | none =>
      min 1 (assessContentComplexity content / getUserSophistication user.wealthLevel)

/-- A possibly-null string is falsy when absent or empty. -/
def truthyStr : Option String → Option String
  | some s => if s = "" then none else some s
  | none => none

/-- `calculateGeoRelevance(content, user)`. -/
def calculateGeoRelevance (content : Content) (user : Candidate) : ℚ :=
  match content.location, truthyStr user.countryCode with
  | some loc, some cc =>
      if loc.country = cc then
        if loc.region = user.region then 1 else 4/5
      else 1/5
  | _, _ => 1/2

/-- `calculateActivityMatch(content, user)`. -/
def calculateActivityMatch (content : Content) (user : Candidate) : ℚ :=
  let userActivity := user.recentActivity
  let contentEngagement := content.likes + content.replies
  if 10 < userActivity ∧ 20 < contentEngagement then 1
  else if 5 < userActivity ∧ 10 < contentEngagement then 4/5
  else if 2 < userActivity ∧ 5 < contentEngagement then 3/5
  else 2/5

/-- `calculateRelevanceScore(content, user)`. -/
def calculateRelevanceScore (content : Content) (user : Candidate) : ℚ :=
  let score := 50 + calculateWealthMatch content user * 25
    + calculateGeoRelevance content user * 15
    + calculateActivityMatch content user * 10
  min 100 (max 0 score)

/-- The targeting engine's own `assessContentQuality(content)`: note the
`hasImages` check is on the raw string column (`content.images.length` is
the JSON string's length, so any nonempty string counts). -/
def targetingContentQuality (content : Content) : ℚ :=
  let engagement := content.likes + content.replies * 2 + content.shares * 3
  let textLength : ℚ := content.text.length
  let hasImages : Bool := match content.imagesRaw with
    | some s => s ≠ ""
    | none => false
  let quality := 30 + min 40 (engagement * 2)
    + (if 100 < textLength then 20 else 10)
    + (if hasImages then 10 else 0)
  min 100 quality

/-- `predictEngagementProbability(content, user)`. -/
def predictEngagementProbability (content : Content) (user : Candidate) : ℚ :=
  let activityFactor := min 1 (user.recentActivity / 10)
  let engagementFactor := min 1 (user.avgEngagement / 50)
  let qualityFactor := targetingContentQuality content / 100
  min (9/10) (3/10 * (1 + activityFactor + engagementFactor + qualityFactor))

/-- `calculateInfluenceMultiplier(user)`. -/
def calculateInfluenceMultiplier (user : Candidate) : ℚ :=
  let influenceScore := user.followersCount * min 1 (user.avgEngagement / 100)
  1 + min 4 (influenceScore / 1000)

/-- The object `{...user, relevanceScore, engagementProbability,
influenceMultiplier}` built by `findTargetsWithinFramework`: the spread
keeps the snake_case row fields and adds the three camelCase scores. -/
structure ScoredRow where
  row : Candidate
  relevanceScore : ℚ
  engagementProbability : ℚ
  influenceMultiplier : ℚ
deriving DecidableEq

/-- The camelCase `wealthLevel` property of a scored row object.  The
query row only defines `wealth_level`, and the spread copies it verbatim,
so this property is always absent (`undefined`). -/
def ScoredRow.wealthLevelField (_ : ScoredRow) : Option String := none

/-- The camelCase `userId` property of a scored row object — likewise
always absent (the row carries `user_id`). -/
def ScoredRow.userIdField (_ : ScoredRow) : Option String := none

/-- Scoring step of `findTargetsWithinFramework`. -/
def scoreRow (content : Content) (user : Candidate) : ScoredRow :=
  { row := user
    relevanceScore := calculateRelevanceScore content user
    engagementProbability := predictEngagementProbability content user
    influenceMultiplier := calculateInfluenceMultiplier user }

/-- `calculateUserValue(user)`: reads the camelCase `wealthLevel`, which a
scored row never has, so `valueMap[undefined]` is `undefined` and the JS
product is `NaN` (`none`). -/
def calculateUserValue (user : ScoredRow) : Option ℚ :=
  (valueMapLookup user.wealthLevelField).map
    (fun wv => user.relevanceScore * user.engagementProbability *
      user.influenceMultiplier * wv)

/-- The sort comparator `(a, b) => calculateUserValue(b) - calculateUserValue(a)`;
`none` is a NaN comparison result. -/
def userValueCmp (a b : ScoredRow) : Option ℚ :=
  (calculateUserValue b).bind (fun vb => (calculateUserValue a).map (fun va => vb - va))

/-- Whether the comparator strictly orders `a` after `b`; a NaN result is
not greater than zero, so it leaves the pair in place (engines treat a NaN
comparator value like 0, keeping the stable order). -/
def cmpAfter (a b : ScoredRow) : Bool :=
  match userValueCmp a b with
  | some v => decide (0 < v)
  | none => false

/-- Stable insertion into an already-sorted suffix: `x` (earlier in the
input) goes before the first element it is not strictly after. -/
def sortInsert (x : ScoredRow) : List ScoredRow → List ScoredRow
  | [] => [x]
  | y :: ys => if cmpAfter x y then y :: sortInsert x ys else x :: y :: ys

/-- Stable sort implementing `Array.prototype.sort` with the comparator
(stable per ES2019; with a consistent comparator this is the unique stable
order, and a NaN comparison acts as equality). -/
def sortByUserValue : List ScoredRow → List ScoredRow
  | [] => []
  | x :: xs => sortInsert x (sortByUserValue xs)

/-- `findTargetsWithinFramework(content, targeting)` downstream of the
candidate query: score, sort by composite value, truncate to 1000. -/
def findTargetsWithinFramework (content : Content) (candidates : List Candidate) :
    List ScoredRow :=
  (sortByUserValue (candidates.map (scoreRow content))).take 1000

/-- The composite ranking value the spec describes, computed from the
fields a scored row actually carries. -/
def intendedComposite (user : ScoredRow) : ℚ :=
  user.relevanceScore * user.engagementProbability * user.influenceMultiplier *
    getWealthLevelValue user.row.wealthLevel

/-! ## ExperienceProtector (`experience-protector.service.ts`) -/

/-- The post row joined by `checkContentQuality` (the SQL computes
`engagement_score` and `text_length`; `Number(x) || 0` applied). -/
structure PostRow where
  engagementScore : ℚ
  textLength : ℚ
  authorId : Option String
  createdAtMs : Nat
deriving DecidableEq

/-- Point-in-time snapshot of every database read the engine performs.
Each field models one SQL query's result as a function of its parameters
(`Option String` keys model queries whose parameter can be the JS
`undefined` of a missing property, which matches no row). -/
structure Store where
  /-- `getContentInfo(postId)` row, as used by targeting and the optimizer. -/
  getContent : String → Option Content
  /-- `queryCandidatesInFramework(targeting)` rows (already filtered and
  ordered by the SQL; capped at 2000 there). -/
  selectCandidates : List WealthLevel → Option (List String) → List Candidate
  /-- `checkContentQuality`'s joined post row. -/
  postRow : String → Option PostRow
  /-- `checkAuthorReputation`'s 30-day average engagement for an author
  (`Number(...) || 0` applied; a missing author averages 0). -/
  authorAvgEngagement : Option String → ℚ
  /-- Per-user promotion deliveries in the trailing 24h
  (`checkFrequencyLimits`; an `undefined` user id matches no row, but the
  snapshot is kept abstract). -/
  deliveredCount24h : Option String → ℚ
  /-- Same-author deliveries in the trailing 24h (`checkPromotionDiversity`). -/
  authorDeliveries24h : Option String → ℚ
  /-- `checkContentTypeDiversity` grouped counts: (content_type, count). -/
  typeStats : List (String × ℚ)

/-- `postLookup`: the quality query parameterized by a possibly-undefined
post id (the controller path passes `content.postId`, which is absent on a
post row, so the query matches nothing). -/
def Store.postLookup (store : Store) : Option String → Option PostRow
  | some pid => store.postRow pid
  | none => none

/-- `checkContentQuality(postId)` score (issues list omitted — it never
feeds a decision). `now` is the `Date.now()` read used for staleness. -/
def checkContentQuality (store : Store) (now : Nat) (postId : Option String) : ℚ :=
  match store.postLookup postId with
  | none => 0
  | some p =>
      let engagementContribution := min 40 (p.engagementScore / 2)
      let lengthAdjustment : ℚ :=
        if p.textLength < 50 then -20 else if 200 < p.textLength then 15 else 0
      let authorReputation := min 1 (store.authorAvgEngagement p.authorId / 50)
      let hoursAgo : ℚ := ((now : ℚ) - (p.createdAtMs : ℚ)) / 3600000
      let stalenessPenalty : ℚ := if 168 < hoursAgo then 10 else 0
      let score := 30 + engagementContribution + lengthAdjustment
        + authorReputation * 15 - stalenessPenalty
      max 0 (min 100 score)

/-- `checkFrequencyLimits(promotion, targetUsers)`: sample the first 100
target users, count those at the 3/day cap, and pass when the violation
rate is below 20%.  The rate divides by `Math.min(targetUsers.length, 100)`;
for an empty list this is `0/0 = NaN` and `NaN < 0.2` is false. -/
def checkFrequencyLimits (store : Store) (targetUsers : List ScoredRow) : Bool :=
  let violating :=
    (targetUsers.take 100).filter (fun u => 3 ≤ store.deliveredCount24h u.userIdField)
  let denom : ℚ := min (targetUsers.length : ℚ) 100
  if denom = 0 then false
  else decide ((violating.length : ℚ) / denom < 1/5)

/-- `checkContentTypeDiversity(promotion)`: `Math.max()` over an empty
spread is `-Infinity`, modelled as `none`, which passes the `< 0.6` test
the way `-Infinity` does. -/
def checkContentTypeDiversity (store : Store) : Bool :=
  let totalPromotions := (store.typeStats.map (·.2)).sum
  match (store.typeStats.map (·.2)).max? with
  | none => true
  | some maxTypeCount => decide (maxTypeCount / max 1 totalPromotions < 3/5)

/-- The promotion object handed to `checkPromotionSafety`: the optimizer
passes `{...request, content}` (camelCase `postId`/`authorId` present),
the controller passes the raw content row (both absent). -/
structure ProtectInput where
  postId : Option String
  authorId : Option String
deriving DecidableEq

/-- `checkPromotionDiversity(promotion)`. -/
def checkPromotionDiversity (store : Store) (promotion : ProtectInput) : Bool :=
  let authorDailyCount := store.authorDeliveries24h promotion.authorId
  let sameAuthorIssue : Bool := decide (2 ≤ authorDailyCount)
  let typeIssue : Bool := !checkContentTypeDiversity store
  !(sameAuthorIssue || typeIssue)

/-- `deliveryConstraints` attached to an approved promotion. -/
structure Constraints where
  maxDailyFrequency : ℚ
  minOrganicGap : ℚ
  qualityThreshold : ℚ
deriving DecidableEq

/-- Result of `checkPromotionSafety`. -/
structure SafetyResult where
  approved : Bool
  safetyScore : ℚ
  rejectionReason : Option String
  constraints : Option Constraints
deriving DecidableEq

/-- `calculateSafetyScore(qualityCheck, frequencyCheck, diversityCheck)`. -/
def calculateSafetyScore (qualityScore : ℚ) (frequencyPassed diversityPassed : Bool) : ℚ :=
  let frequencyScore : ℚ := if frequencyPassed then 100 else 0
  let diversityScore : ℚ := if diversityPassed then 100 else 0
  min 100 (qualityScore * (1/2) + frequencyScore * (3/10) + diversityScore * (1/5))

/-- `checkPromotionSafety(promotion, targetUsers)`: quality, frequency and
diversity gates in order, short-circuiting on the first failure. -/
def checkPromotionSafety (store : Store) (now : Nat) (promotion : ProtectInput)
    (targetUsers : List ScoredRow) : SafetyResult :=
  let qualityScore := checkContentQuality store now promotion.postId
  if qualityScore < 40 then
    { approved := false, safetyScore := qualityScore
      rejectionReason := some "content_quality_too_low", constraints := none }
  else if !checkFrequencyLimits store targetUsers then
    { approved := false, safetyScore := 0
      rejectionReason := some "frequency_limit_exceeded", constraints := none }
  else if !checkPromotionDiversity store promotion then
    { approved := false, safetyScore := 0
      rejectionReason := some "diversity_requirements_not_met", constraints := none }
  else
    { approved := true
      safetyScore := calculateSafetyScore qualityScore true true
      rejectionReason := none
      constraints := some
        { maxDailyFrequency := 3, minOrganicGap := 3, qualityThreshold := qualityScore } }

/-- The `QualityProtection` report record. -/
structure QualityProtectionRec where
  maxFrequencyPerUser : ℚ
  minContentQuality : ℚ
  organicContentRatio : ℚ
  maxSameAuthor : ℚ
  contentTypeBalance : Bool
deriving DecidableEq

/-- `generateProtectionReport(approved, rejected)` ignores both arguments
and returns fixed configuration. -/
def generateProtectionReport (_approved _rejected : List (ProtectInput × SafetyResult)) :
    QualityProtectionRec :=
  { maxFrequencyPerUser := 3, minContentQuality := 40
    organicContentRatio := 17/20, maxSameAuthor := 2, contentTypeBalance := true }

/-- Result of `protectUserExperience`. -/
structure ProtectionOutcome where
  approvedPromotions : List (ProtectInput × SafetyResult)
  rejectedPromotions : List (ProtectInput × SafetyResult)
  protectionReport : QualityProtectionRec
deriving DecidableEq

/-- `protectUserExperience(promotions, targetUsers)`. -/
def protectUserExperience (store : Store) (now : Nat)
    (promotions : List ProtectInput) (targetUsers : List ScoredRow) : ProtectionOutcome :=
  let results := promotions.map (fun p => (p, checkPromotionSafety store now p targetUsers))
  let approved := results.filter (fun r => r.2.approved)
  let rejected := results.filter (fun r => !r.2.approved)
  { approvedPromotions := approved
    rejectedPromotions := rejected
    protectionReport := generateProtectionReport approved rejected }

/-! ## RefundService and SchedulerService sweeps (`refund.service.ts`,
`scheduler.service.ts`), projected onto a single promotion's persisted
rows.  The sweeps' SQL selects rows by status/date and the loop bodies act
per promotion, so the per-promotion projection is exact. -/

/-- `promotions.status` column. -/
inductive PromoStatus
  | active | completed | stopped_early
deriving DecidableEq, Repr

/-- `refund_tasks.status` column. -/
inductive TaskStatus
  | scheduled | completed | failed
deriving DecidableEq, Repr

/-- `promotion_queue.status` column. -/
inductive QueueStatus
  | scheduled | delivered | cancelled
deriving DecidableEq, Repr

/-- The `promotions` row fields the sweeps touch. -/
structure PromotionRow where
  authorId : String
  budgetTotal : ℚ
  status : PromoStatus
  completedAt : Option Nat
  expiresAt : Nat
deriving DecidableEq

/-- The `refund_tasks` row (exactly one per promotion). -/
structure RefundTaskRow where
  originalBudget : ℚ
  refundDate : Nat
  status : TaskStatus
  refundAmount : Option ℚ
  processedAt : Option Nat
deriving DecidableEq

/-- A `points_ledger` credit row as written by `executeRefund`. -/
structure LedgerEntry where
  userId : String
  amount : ℚ
  entryType : String
  referenceType : String
deriving DecidableEq

/-- A `promotion_queue` row as the early-stop path sees it. -/
structure QueueRow where
  userId : Option String
  status : QueueStatus
  cancellationReason : Option String
deriving DecidableEq

/-- The persisted state of one promotion: its row, its refund task, its
append-only expense ledger, the points ledger credits written for it, and
its delivery queue. -/
structure PromoState where
  promo : PromotionRow
  task : RefundTaskRow
  expenses : List ℚ
  ledger : List LedgerEntry
  queue : List QueueRow
deriving DecidableEq

/-- `SUM(pe.cost)` over the promotion's expenses. -/
def totalSpent (s : PromoState) : ℚ := s.expenses.sum

/-- `executeRefund(authorId, amount, promotionId)`: append one
`points_ledger` credit. -/
def executeRefund (authorId : String) (amount : ℚ) (s : PromoState) : PromoState :=
  { s with ledger := s.ledger ++
      [{ userId := authorId, amount := amount, entryType := "earn"
         referenceType := "promotion_refund" }] }

/-- `processRefund(promotion)`: credit `max(0, originalBudget − totalSpent)`
when positive, then unconditionally set the promotion `completed` and the
task `completed` — no status re-check before either write. -/
def processRefund (now : Nat) (s : PromoState) : PromoState :=
  let refundAmount := max 0 (s.task.originalBudget - totalSpent s)
  let s1 := if 0 < refundAmount then executeRefund s.promo.authorId refundAmount s else s
  let s2 := { s1 with promo :=
    { s1.promo with status := .completed, completedAt := some now } }
  { s2 with task :=
    { s2.task with
        status := .completed
        processedAt := some now
        refundAmount := some refundAmount } }

/-- `processScheduledRefunds()`: the sweep's SELECT keeps a task only when
`status = 'scheduled'` and `refund_date <= NOW()`; the promotion's own
status is not part of the filter. -/
def processScheduledRefunds (now : Nat) (s : PromoState) : PromoState :=
  if s.task.status = .scheduled ∧ s.task.refundDate ≤ now then processRefund now s else s

/-- `stopPromotionEarly(promotionId, reason)`: cancel scheduled queue
entries, unconditionally set `stopped_early`, and credit the remaining
budget when positive — the refund task is not touched and no status is
re-checked before crediting. -/
def stopPromotionEarly (now : Nat) (reason : String) (s : PromoState) : PromoState :=
  let cancelRow : QueueRow → QueueRow := fun q =>
    if q.status = .scheduled then
      { q with status := .cancelled, cancellationReason := some reason }
    else q
  let s1 := { s with queue := s.queue.map cancelRow }
  let s2 := { s1 with promo :=
    { s1.promo with status := .stopped_early, completedAt := some now } }
  let remainingBudget := max 0 (s2.promo.budgetTotal - totalSpent s2)
  if 0 < remainingBudget then executeRefund s2.promo.authorId remainingBudget s2 else s2

/-- `checkBudgetExhaustion()` (10-minute sweep): an active, unexpired
promotion whose spend reaches 98% of budget is stopped early. -/
def checkBudgetExhaustion (now : Nat) (s : PromoState) : PromoState :=
  if s.promo.status = .active ∧ now < s.promo.expiresAt ∧
      s.promo.budgetTotal * (98/100) ≤ totalSpent s then
    stopPromotionEarly now "budget_exhausted" s
  else s

/-! ## PromotionOptimizer (`promotion-optimizer.service.ts`) -/

/-- Ambient inputs the optimizer reads from outside its arguments: the
clock (`Date.now()`, `new Date().getHours()`, `isWeekend()`) and the
random draw of `generatePromotionId` (`Math.random().toString(36).slice(2)`,
kept as the resulting token). -/
structure Env where
  nowMs : Nat
  randToken : String
  hour : Nat
  weekend : Bool

/-- `generatePromotionId()`:
`'promo_' + Date.now().toString(36) + '_' + Math.random().toString(36).slice(2)`. -/
def generatePromotionId (env : Env) : String :=
  "promo_" ++ base36 env.nowMs ++ "_" ++ env.randToken

/-- The `PromotionRequest` fields the engine reads (`goals` is unused). -/
structure PromotionRequest where
  authorId : String
  postId : String
  budgetTotal : ℚ
  duration : Nat
  wealthLevels : List WealthLevel
  preferredRegions : Option (List String)
  excludeFollowers : Bool

/-- The optimizer's own `assessContentQuality(content)` (here the images
check parses the JSON column, so it is the array length that counts). -/
def optimizerContentQuality (content : Content) : ℚ :=
  let engagement := content.likes + content.replies * 2 + content.shares * 3
  let textLength : ℚ := content.text.length
  let hasImages : Bool := match content.imagesRaw with
    | some s => s ≠ "" && decide (0 < content.imagesLen)
    | none => false
  let quality := 20 + min 50 engagement
    + (if 200 < textLength then 20 else 10)
    + (if hasImages then 10 else 0)
  min 100 quality

/-- `businessKeywords` of `assessContentBusinessPotential`. -/
def businessKeywords : List String :=
  ["投资", "合作", "创业", "项目", "商机",
   "investment", "partnership", "startup", "business"]

/-- `assessContentBusinessPotential(content)`: 20 base + 20 per matched
keyword, capped at 100. -/
def assessContentBusinessPotential (content : Content) : ℚ :=
  let text := content.text.toLower
  let keywordMatches :=
    (businessKeywords.filter (fun k => containsChars text.toList k.toList)).length
  min 100 ((keywordMatches : ℚ) * 20 + 20)

/-- The `wealthValues` record of `calculateAudienceBusinessValue`: four
capitalized keys, read with the (always absent) camelCase `wealthLevel`
property as key. -/
def wealthValues4 : Option String → Option ℚ
  | some "Plankton" => some 1
  | some "Turtle" => some 3
  | some "Dolphin" => some 7
  | some "Whale" => some 15
  | _ => none

/-- `calculateAudienceBusinessValue(targetUsers)`: mean wealth value times
mean influence; an undefined wealth-value lookup poisons the sum (NaN). -/
def calculateAudienceBusinessValue (targetUsers : List ScoredRow) : Option ℚ :=
  let wealthSum := targetUsers.foldl
    (fun acc u => acc.bind (fun a => (wealthValues4 u.wealthLevelField).map (a + ·)))
    (some 0)
  let avgWealthValue := jsDiv wealthSum (some (targetUsers.length : ℚ))
  let avgInfluence := jsDiv (some (targetUsers.map (·.influenceMultiplier)).sum)
    (some (targetUsers.length : ℚ))
  avgWealthValue.bind (fun w => avgInfluence.map (fun i => w * i))

/-- `calculateExpectedBusinessValue(content, targetUsers)`: content value ×
audience value × reach × 0.01. -/
def calculateExpectedBusinessValue (content : Content) (targetUsers : List ScoredRow) :
    Option ℚ :=
  (calculateAudienceBusinessValue targetUsers).map
    (fun audienceValue => assessContentBusinessPotential content * audienceValue *
      (targetUsers.length : ℚ) * (1/100))

/-- `calculateAverageRelevance(users)` (explicit empty-list guard). -/
def calculateAverageRelevance (users : List ScoredRow) : ℚ :=
  if users.length = 0 then 0
  else (users.map (·.relevanceScore)).sum / (users.length : ℚ)

/-- The string JS coerces the property key to in
`distribution[user.wealthLevel]++` (an absent property reads as the key
`"undefined"`). -/
def wealthKey (u : ScoredRow) : String :=
  match u.wealthLevelField with
  | some s => s
  | none => "undefined"

/-- `calculateWealthDistribution(targetUsers)`: entropy of the four-bucket
(capitalized) distribution; `Math.log2` is a floating-point call, passed
in as `log2`; an incremented absent bucket is NaN and poisons the entropy. -/
def calculateWealthDistribution (log2 : ℚ → ℚ) (targetUsers : List ScoredRow) :
    Option ℚ :=
  let dist0 : AList String (Option ℚ) :=
    [("Plankton", some 0), ("Turtle", some 0), ("Dolphin", some 0), ("Whale", some 0)]
  let bump : AList String (Option ℚ) → ScoredRow → AList String (Option ℚ) := fun d u =>
    let k := wealthKey u
    rset d k (match rget d k with
      | some (some v) => some (v + 1)
      | some none => none
      | none => none)
  let dist := targetUsers.foldl bump dist0
  let total : ℚ := targetUsers.length
  let entropy := (rvalues dist).foldl (fun acc cOpt =>
    acc.bind (fun a => cOpt.bind (fun c =>
      if c = 0 then some a
      else (jsDiv (some c) (some total)).map (fun p => a - p * log2 p)))) (some 0)
  entropy.map (fun e => e / 2 * 100)

/-- `calculateAudienceQuality(targetUsers)`. -/
def calculateAudienceQuality (log2 : ℚ → ℚ) (targetUsers : List ScoredRow) : Option ℚ :=
  let avgRelevance := calculateAverageRelevance targetUsers
  let avgEngagement := jsDiv (some (targetUsers.map (·.engagementProbability)).sum)
    (some (targetUsers.length : ℚ))
  avgEngagement.bind (fun e => (calculateWealthDistribution log2 targetUsers).map
    (fun w => (avgRelevance + e * 100 + w) / 3))

/-- `calculateGoalAchievementProbability(content, targetUsers, averageRelevance)`. -/
def calculateGoalAchievementProbability (log2 : ℚ → ℚ) (content : Content)
    (targetUsers : List ScoredRow) (averageRelevance : ℚ) : Option ℚ :=
  let contentQuality := optimizerContentQuality content
  (calculateAudienceQuality log2 targetUsers).map (fun audienceQuality =>
    min (19/20) (2/5 + contentQuality / 100 * (3/10)
      + audienceQuality / 100 * (1/5) + averageRelevance / 100 * (1/10)))

/-- `estimateExpectedActions(targetUsers)` (fed to
`calculateBudgetOptimization`, which ignores it). -/
def estimateExpectedActions (targetUsers : List ScoredRow) : AList String (Option ℚ) :=
  let totalUsers : ℚ := targetUsers.length
  let avg := jsDiv (some (targetUsers.map (·.engagementProbability)).sum) (some totalUsers)
  [("view", some totalUsers),
   ("click", avg.map (fun a => ((Int.floor (totalUsers * a * (1/10))) : ℚ))),
   ("like", avg.map (fun a => ((Int.floor (totalUsers * a * (1/20))) : ℚ))),
   ("comment", avg.map (fun a => ((Int.floor (totalUsers * a * (1/50))) : ℚ))),
   ("share", avg.map (fun a => ((Int.floor (totalUsers * a * (3/100))) : ℚ))),
   ("unlock", avg.map (fun a => ((Int.floor (totalUsers * a * (1/100))) : ℚ))),
   ("follow", avg.map (fun a => ((Int.floor (totalUsers * a * (1/50))) : ℚ)))]

/-- `analyzeUserActivityPatterns(targetUsers)`: 24 hourly weights, bumped
per user; the tier comparison is against the capitalized strings
`'Whale'`/`'Dolphin'` via the absent camelCase property, then normalized
by the maximum. -/
def analyzeUserActivityPatterns (targetUsers : List ScoredRow) : List ℚ :=
  let bumpHours : List ℚ → Nat → Nat → ℚ → List ℚ := fun p lo hi amt =>
    p.mapIdx (fun i v => if lo ≤ i ∧ i ≤ hi then v + amt else v)
  let base := List.replicate 24 ((1/10 : ℚ))
  let patterns := targetUsers.foldl (fun p u =>
    if u.wealthLevelField = some "Whale" ∨ u.wealthLevelField = some "Dolphin" then
      bumpHours p 9 18 (3/10)
    else
      bumpHours p 19 23 (1/5)) base
  let maxActivity := patterns.foldl max 0
  patterns.map (fun v => v / maxActivity)

/-- `distributeByActivity(budgetAllocations, activityPatterns)`. -/
def distributeByActivity (budgetAllocations : AList WealthLevel ℚ)
    (activityPatterns : List ℚ) : AList String ℚ :=
  let totalBudget := (rvalues budgetAllocations).sum
  let totalActivity := activityPatterns.sum
  activityPatterns.enum.map
    (fun p => ("hour_" ++ toString p.1, p.2 / totalActivity * totalBudget))

/-- `selectDayTargets(allTargets, day, totalDays)`. -/
def selectDayTargets (allTargets : List ScoredRow) (day totalDays : Nat) :
    List ScoredRow :=
  let usersPerDay := if totalDays = 0 then 0 else (allTargets.length + totalDays - 1) / totalDays
  (allTargets.drop (day * usersPerDay)).take usersPerDay

/-- One entry of the optimizer's `dailySchedule`. -/
structure ScheduleDay where
  day : Nat
  budget : ℚ
  targets : List ScoredRow
  hourlyDistribution : AList String ℚ
deriving DecidableEq

/-- The schedule record built by `createOptimalSchedule`; `startTime` and
`endTime` are `new Date()` / `Date.now()` readings. -/
structure DeliveryScheduleRec where
  startTime : Nat
  endTime : Nat
  dailySchedule : List ScheduleDay
  timeAllocations : AList String ℚ
deriving DecidableEq

/-- `createOptimalSchedule(targetUsers, duration, budgetAllocations)`. -/
def createOptimalSchedule (targetUsers : List ScoredRow) (duration : Nat)
    (budgetAllocations : AList WealthLevel ℚ) (nowMs : Nat) : DeliveryScheduleRec :=
  let activityPatterns := analyzeUserActivityPatterns targetUsers
  let hourlyAllocations := distributeByActivity budgetAllocations activityPatterns
  let dailySchedule := (List.range duration).map (fun day =>
    { day := day
      budget := (rvalues budgetAllocations).sum / (duration : ℚ)
      targets := selectDayTargets targetUsers day duration
      hourlyDistribution := hourlyAllocations })
  { startTime := nowMs
    endTime := nowMs + duration * 86400000
    dailySchedule := dailySchedule
    timeAllocations := hourlyAllocations }

/-- The `expectedOutcome` record of a plan. -/
structure ExpectedOutcomeRec where
  estimatedViews : ℤ
  estimatedClicks : Option ℤ
  estimatedEngagements : Option ℤ
  estimatedFollows : Option ℤ
  expectedROI : Option ℚ
  goalAchievementProbability : Option ℚ
deriving DecidableEq

/-- `predictPromotionOutcome(content, targetUsers, budgetOptimization,
pricingStrategy)` (the pricing argument is unused by the source body). -/
def predictPromotionOutcome (log2 : ℚ → ℚ) (content : Content)
    (targetUsers : List ScoredRow) (budgetOptimization : BudgetOptimization) :
    ExpectedOutcomeRec :=
  let totalBudget := (rvalues budgetOptimization.recommendedAllocation).sum
  let averageRelevance := calculateAverageRelevance targetUsers
  let avgEngagementProb := jsDiv (some (targetUsers.map (·.engagementProbability)).sum)
    (some (targetUsers.length : ℚ))
  let estimatedViews : ℤ := Int.floor (totalBudget / (1/500))
  { estimatedViews := estimatedViews
    estimatedClicks := avgEngagementProb.map
      (fun e => Int.floor ((estimatedViews : ℚ) * e * (1/10)))
    estimatedEngagements := avgEngagementProb.map
      (fun e => Int.floor ((estimatedViews : ℚ) * e * (1/20)))
    estimatedFollows := avgEngagementProb.map
      (fun e => Int.floor ((estimatedViews : ℚ) * e * (1/50)))
    expectedROI := jsDiv (calculateExpectedBusinessValue content targetUsers)
      (some totalBudget)
    goalAchievementProbability :=
      calculateGoalAchievementProbability log2 content targetUsers averageRelevance }

/-- The `budget` record of a plan. -/
structure BudgetAllocationRec where
  total : ℚ
  wealthLevelAllocations : AList WealthLevel ℚ
  timeSlotAllocations : AList String ℚ
  actionPricing : ActionType → ℚ

/-- The `targeting` record of a plan. -/
structure TargetingPlanRec where
  primaryTargets : List ScoredRow
  secondaryTargets : List ScoredRow
  totalReach : Nat
  averageRelevance : ℚ
deriving DecidableEq

/-- The `PromotionPlan` returned by the optimizer. -/
structure PromotionPlan where
  promotionId : String
  postId : String
  authorId : String
  budget : BudgetAllocationRec
  targeting : TargetingPlanRec
  schedule : DeliveryScheduleRec
  expectedOutcome : ExpectedOutcomeRec
  qualityProtection : QualityProtectionRec

/-- `optimizePromotionWithinFramework(request)`: throws `Post not found`
when the content is absent, otherwise assembles the plan. -/
def optimizePromotionWithinFramework (log2 : ℚ → ℚ) (store : Store) (env : Env)
    (request : PromotionRequest) : Except String PromotionPlan :=
  match store.getContent request.postId with
  | none => .error "Post not found"
  | some content =>
      let targetUsers := findTargetsWithinFramework content
        (store.selectCandidates request.wealthLevels request.preferredRegions)
      let pricingStrategy := calculateDynamicPricing request.wealthLevels
        (optimizerContentQuality content) env.hour "CN" env.weekend
      let budgetOptimization := calculateBudgetOptimization request.budgetTotal
        request.wealthLevels (estimateExpectedActions targetUsers)
      let experienceProtection := protectUserExperience store env.nowMs
        [{ postId := some request.postId, authorId := some request.authorId }] targetUsers
      let deliverySchedule := createOptimalSchedule targetUsers request.duration
        budgetOptimization.recommendedAllocation env.nowMs
      let expectedOutcome := predictPromotionOutcome log2 content targetUsers
        budgetOptimization
      let primaryCount := targetUsers.length * 7 / 10
      .ok
        { promotionId := generatePromotionId env
          postId := request.postId
          authorId := request.authorId
          budget :=
            { total := request.budgetTotal
              wealthLevelAllocations := budgetOptimization.recommendedAllocation
              timeSlotAllocations := deliverySchedule.timeAllocations
              actionPricing := pricingStrategy.basePrices }
          targeting :=
            { primaryTargets := targetUsers.take primaryCount
              secondaryTargets := targetUsers.drop primaryCount
              totalReach := targetUsers.length
              averageRelevance := calculateAverageRelevance targetUsers }
          schedule := deliverySchedule
          expectedOutcome := expectedOutcome
          qualityProtection := experienceProtection.protectionReport }

/-- Erase exactly the plan fields that read the clock or the random draw
(`promotionId`, `schedule.startTime`, `schedule.endTime`). -/
def stripEnvFields (p : PromotionPlan) : PromotionPlan :=
  { p with
      promotionId := ""
      schedule := { p.schedule with startTime := 0, endTime := 0 } }

/-! ## PromotionController creation path (`promotion.controller.ts`) -/

/-- The `promotions` row inserted by `recordPromotionRequest`. -/
structure CreatedPromotionRow where
  id : String
  postId : String
  authorId : String
  budgetTotal : ℚ
  durationDays : Nat
  status : PromoStatus
  createdAt : Nat
  expiresAt : Nat
deriving DecidableEq

/-- The `refund_tasks` row inserted by `scheduleRefundTask`. -/
structure CreatedRefundTask where
  promotionId : String
  originalBudget : ℚ
  refundDate : Nat
  status : TaskStatus
  createdAt : Nat
deriving DecidableEq

/-- `recordPromotionRequest(promotionId, request)`. -/
def recordPromotionRequest (promotionId : String) (request : PromotionRequest)
    (now : Nat) : CreatedPromotionRow :=
  { id := promotionId
    postId := request.postId
    authorId := request.authorId
    budgetTotal := request.budgetTotal
    durationDays := request.duration
    status := .active
    createdAt := now
    expiresAt := now + request.duration * 86400000 }

/-- `scheduleRefundTask(promotionId, totalBudget, maxDays)`:
`refundDate = Date.now() + maxDays days`. -/
def scheduleRefundTask (promotionId : String) (totalBudget : ℚ) (maxDays : Nat)
    (now : Nat) : CreatedRefundTask :=
  { promotionId := promotionId
    originalBudget := totalBudget
    refundDate := now + maxDays * 86400000
    status := .scheduled
    createdAt := now }

/-- `createDeliveryQueue(promotionId, approvedPromotions, targetUsers)`:
seven daily batches over the target users; the `approvedPromotions`
argument is unused by the loop, and each row's `user_id` is the (absent)
camelCase `userId` of the scored row. -/
def createDeliveryQueue (_approvedPromotions : List (ProtectInput × SafetyResult))
    (targetUsers : List ScoredRow) : List QueueRow :=
  let duration := 7
  let usersPerDay := (targetUsers.length + duration - 1) / duration
  (List.range duration).flatMap (fun day =>
    ((targetUsers.drop (day * usersPerDay)).take usersPerDay).map
      (fun u => { userId := u.userIdField, status := .scheduled, cancellationReason := none }))

/-- `initiateDelivery(promotionId, request)`: `none` models the runtime
throw when the content row is null (both the targeting map and the
protector dereference it). The promotion object handed to the protector is
the raw content row, whose camelCase `postId`/`authorId` are absent. -/
def initiateDelivery (request : PromotionRequest) (store : Store) (now : Nat) :
    Option (List QueueRow) :=
  match store.getContent request.postId with
  | none => none
  | some content =>
      let targetUsers := findTargetsWithinFramework content
        (store.selectCandidates request.wealthLevels request.preferredRegions)
      let protectedResult := protectUserExperience store now
        [{ postId := none, authorId := none }] targetUsers
      some (createDeliveryQueue protectedResult.approvedPromotions targetUsers)

/-- All rows `startPromotionExecution` would persist. -/
structure CreatedRows where
  promotion : CreatedPromotionRow
  queue : List QueueRow
  refundTasks : List CreatedRefundTask
deriving DecidableEq

/-- The controller's `this.generatePromotionId()`: `PromotionController`
declares no method of that name (only `PromotionOptimizerService` has a
private one), so the property read yields `undefined` and the call throws
`TypeError` — modelled as `none`. -/
def controllerGeneratePromotionId : Option String := none

/-- `startPromotionExecution(request)`: its first statement is
`const promotionId = this.generatePromotionId()`, which throws before any
insert, so the whole creation path yields an error and persists nothing.
Had the call returned an id, the path would record the promotion,
initiate delivery, then schedule exactly one refund task with the
constant `maxDays = 7` (not `min(duration, 7)`). -/
def startPromotionExecution (request : PromotionRequest) (store : Store)
    (now : Nat) : Option CreatedRows :=
  match controllerGeneratePromotionId with
  | none => none
  | some promotionId =>
      let promotion := recordPromotionRequest promotionId request now
      (initiateDelivery request store now).map (fun queue =>
        { promotion := promotion
          queue := queue
          refundTasks := [scheduleRefundTask promotionId request.budgetTotal 7 now] })

/-- `createPromotion` request handling after schema validation: the
duration is capped at 7 before execution (the thrown `TypeError` is then
caught and surfaced as a 400 response). -/
def createPromotion (request : PromotionRequest) (store : Store)
    (now : Nat) : Option CreatedRows :=
  startPromotionExecution { request with duration := min request.duration 7 } store now

/-! ## Concrete fixtures used by counterexamples and witnesses -/

/-- A promotion at 98% spend with a due, still-scheduled refund task. -/
def raceState : PromoState :=
  { promo := { authorId := "a", budgetTotal := 100, status := .active
               completedAt := none, expiresAt := 1000000000 }
    task := { originalBudget := 100, refundDate := 500, status := .scheduled
              refundAmount := none, processedAt := none }
    expenses := [98]
    ledger := []
    queue := [] }

/-- A promotion with a due task and 60 units unspent. -/
def dueState : PromoState :=
  { promo := { authorId := "a", budgetTotal := 100, status := .active
               completedAt := none, expiresAt := 1000000000 }
    task := { originalBudget := 100, refundDate := 50, status := .scheduled
              refundAmount := none, processedAt := none }
    expenses := [40]
    ledger := []
    queue := [] }

/-- A store whose single post has plenty of engagement and long text, so
its quality score is 85. -/
def goodPostStore : Store :=
  { getContent := fun _ => none
    selectCandidates := fun _ _ => []
    postRow := fun _ => some
      { engagementScore := 100, textLength := 300, authorId := some "a", createdAtMs := 0 }
    authorAvgEngagement := fun _ => 0
    deliveredCount24h := fun _ => 0
    authorDeliveries24h := fun _ => 0
    typeStats := [] }

/-- A bare content row (no text, images, target tiers or location). -/
def emptyContent : Content :=
  { likes := 0, replies := 0, shares := 0, text := "", imagesRaw := none, imagesLen := 0
    targetWealthLevels := none, location := none }

/-- A store holding one bare content row and no candidates. -/
def contentStore : Store :=
  { getContent := fun _ => some emptyContent
    selectCandidates := fun _ _ => []
    postRow := fun _ => none
    authorAvgEngagement := fun _ => 0
    deliveredCount24h := fun _ => 0
    authorDeliveries24h := fun _ => 0
    typeStats := [] }

/-- A three-day promotion request targeting whales. -/
def promoReq : PromotionRequest :=
  { authorId := "auth", postId := "post", budgetTotal := 100, duration := 3
    wealthLevels := [.whale], preferredRegions := none, excludeFollowers := false }

/-- Content declaring an empty target-tier list (so every candidate gets
the 0.3 wealth-match factor and tier-independent scores). -/
def tieContent : Content :=
  { likes := 0, replies := 0, shares := 0, text := "", imagesRaw := none, imagesLen := 0
    targetWealthLevels := some [], location := none }

/-- A plankton candidate appearing first in the query order. -/
def lowCand : Candidate :=
  { userId := "u1", countryCode := none, region := none, wealthLevel := .plankton
    followersCount := 0, recentActivity := 0, avgEngagement := 0 }

/-- A giant-whale candidate appearing second in the query order. -/
def highCand : Candidate :=
  { userId := "u2", countryCode := none, region := none, wealthLevel := .giant_whale
    followersCount := 0, recentActivity := 0, avgEngagement := 0 }

/-! ## Lemmas about the sweeps -/

/-- `stopPromotionEarly` never touches the refund task row. -/
theorem stopPromotionEarly_task (now : Nat) (reason : String) (s : PromoState) :
    (stopPromotionEarly now reason s).task = s.task := by
  simp only [stopPromotionEarly, executeRefund]
  split <;> rfl

/-- `stopPromotionEarly` unconditionally writes `stopped_early`. -/
theorem stopPromotionEarly_status (now : Nat) (reason : String) (s : PromoState) :
    (stopPromotionEarly now reason s).promo.status = .stopped_early := by
  simp only [stopPromotionEarly, executeRefund]
  split <;> rfl

/-- `stopPromotionEarly` leaves the expense ledger unchanged. -/
theorem stopPromotionEarly_spent (now : Nat) (reason : String) (s : PromoState) :
    totalSpent (stopPromotionEarly now reason s) = totalSpent s := by
  simp only [stopPromotionEarly, executeRefund, totalSpent]
  split <;> rfl

/-- `stopPromotionEarly` keeps the author id. -/
theorem stopPromotionEarly_author (now : Nat) (reason : String) (s : PromoState) :
    (stopPromotionEarly now reason s).promo.authorId = s.promo.authorId := by
  simp only [stopPromotionEarly, executeRefund]
  split <;> rfl

/-- `stopPromotionEarly` keeps the budget. -/
theorem stopPromotionEarly_budget (now : Nat) (reason : String) (s : PromoState) :
    (stopPromotionEarly now reason s).promo.budgetTotal = s.promo.budgetTotal := by
  simp only [stopPromotionEarly, executeRefund]
  split <;> rfl

/-- The credit `stopPromotionEarly` appends when budget remains. -/
theorem stopPromotionEarly_ledger (now : Nat) (reason : String) (s : PromoState)
    (h : 0 < s.promo.budgetTotal - totalSpent s) :
    (stopPromotionEarly now reason s).ledger = s.ledger ++
      [{ userId := s.promo.authorId, amount := s.promo.budgetTotal - totalSpent s
         entryType := "earn", referenceType := "promotion_refund" }] := by
  simp only [totalSpent] at h
  simp only [stopPromotionEarly, executeRefund, totalSpent]
  rw [max_eq_right h.le, if_pos h]

/-- `processRefund` unconditionally writes `completed`. -/
theorem processRefund_status (now : Nat) (s : PromoState) :
    (processRefund now s).promo.status = .completed := by
  simp only [processRefund, executeRefund]

/-- `processRefund` marks the task completed. -/
theorem processRefund_task_status (now : Nat) (s : PromoState) :
    (processRefund now s).task.status = .completed := by
  simp only [processRefund, executeRefund]

/-- The credit `processRefund` appends when budget remains. -/
theorem processRefund_ledger (now : Nat) (s : PromoState)
    (h : 0 < s.task.originalBudget - totalSpent s) :
    (processRefund now s).ledger = s.ledger ++
      [{ userId := s.promo.authorId, amount := s.task.originalBudget - totalSpent s
         entryType := "earn", referenceType := "promotion_refund" }] := by
  simp only [totalSpent] at h
  simp only [processRefund, executeRefund, totalSpent]
  rw [max_eq_right h.le, if_pos h]

/-! ## C1 -/

/-- C1 counterexample: with 98 of 100 spent and a due refund task, the
exhaustion sweep moves the promotion out of `active` to `stopped_early`,
and the refund sweep then changes the status again, to `completed` — the
transition out of `active` is not final and the second path is not a
no-op, because neither write is conditioned on the current status. -/
theorem status_changes_after_leaving_active :
    (checkBudgetExhaustion 600 raceState).promo.status = PromoStatus.stopped_early ∧
    (processScheduledRefunds 700 (checkBudgetExhaustion 600 raceState)).promo.status =
      PromoStatus.completed ∧
    PromoStatus.stopped_early ≠ PromoStatus.completed := by
  have hgate : raceState.promo.status = .active ∧ 600 < raceState.promo.expiresAt ∧
      raceState.promo.budgetTotal * (98/100) ≤ totalSpent raceState := by
    refine ⟨rfl, by norm_num [raceState], ?_⟩
    norm_num [raceState, totalSpent]
  refine ⟨?_, ?_, by decide⟩
  · unfold checkBudgetExhaustion
    rw [if_pos hgate]
    exact stopPromotionEarly_status _ _ _
  · unfold checkBudgetExhaustion
    rw [if_pos hgate]
    unfold processScheduledRefunds
    simp only [stopPromotionEarly_task]
    rw [if_pos (⟨rfl, by norm_num [raceState]⟩ :
      raceState.task.status = .scheduled ∧ raceState.task.refundDate ≤ 700)]
    exact processRefund_status _ _

/-- C1 (amended): status transitions are unconditional. When an active
promotion is both at the 98% threshold (exhaustion sweep fires) and has a
due scheduled refund task (refund sweep fires), the first sweep writes
`stopped_early` and the second overwrites it with `completed`: the
promotion leaves `active` twice and neither path is a no-op on the
other's result. -/
theorem status_transitions_unconditional (s : PromoState) (t1 t2 : Nat)
    (hactive : s.promo.status = .active)
    (hsched : s.task.status = .scheduled)
    (hdue : s.task.refundDate ≤ t2)
    (hexp : t1 < s.promo.expiresAt)
    (hspend : s.promo.budgetTotal * (98/100) ≤ totalSpent s) :
    (checkBudgetExhaustion t1 s).promo.status = .stopped_early ∧
    (processScheduledRefunds t2 (checkBudgetExhaustion t1 s)).promo.status = .completed := by
  have hgate : s.promo.status = .active ∧ t1 < s.promo.expiresAt ∧
      s.promo.budgetTotal * (98/100) ≤ totalSpent s := ⟨hactive, hexp, hspend⟩
  unfold checkBudgetExhaustion
  rw [if_pos hgate]
  refine ⟨stopPromotionEarly_status _ _ _, ?_⟩
  unfold processScheduledRefunds
  simp only [stopPromotionEarly_task]
  rw [if_pos (⟨hsched, hdue⟩ : s.task.status = .scheduled ∧ s.task.refundDate ≤ t2)]
  exact processRefund_status _ _

/-- C1 amended-claim witness at the concrete race state. -/
theorem status_transitions_unconditional_witness :
    raceState.promo.status = .active ∧
    raceState.task.status = .scheduled ∧
    raceState.task.refundDate ≤ 700 ∧
    600 < raceState.promo.expiresAt ∧
    raceState.promo.budgetTotal * (98/100) ≤ totalSpent raceState ∧
    ((checkBudgetExhaustion 600 raceState).promo.status = .stopped_early ∧
      (processScheduledRefunds 700 (checkBudgetExhaustion 600 raceState)).promo.status =
        .completed) :=
  ⟨rfl, rfl, by norm_num [raceState], by norm_num [raceState],
    by norm_num [raceState, totalSpent],
    status_transitions_unconditional raceState 600 700 rfl rfl
      (by norm_num [raceState]) (by norm_num [raceState])
      (by norm_num [raceState, totalSpent])⟩

/-! ## C2 -/

/-- C2 counterexample: after the early stop at 98% spend, the still
scheduled refund task comes due and the refund sweep credits the same
remaining 2 COCO a second time — two nonzero credits in the ledger, with
no status re-verification before either credit. -/
theorem two_nonzero_credits_written :
    (processScheduledRefunds 700 (checkBudgetExhaustion 600 raceState)).ledger =
      [{ userId := "a", amount := 2, entryType := "earn"
         referenceType := "promotion_refund" },
       { userId := "a", amount := 2, entryType := "earn"
         referenceType := "promotion_refund" }] ∧
    (0 : ℚ) < 2 := by
  have hgate : raceState.promo.status = .active ∧ 600 < raceState.promo.expiresAt ∧
      raceState.promo.budgetTotal * (98/100) ≤ totalSpent raceState := by
    refine ⟨rfl, by norm_num [raceState], ?_⟩
    norm_num [raceState, totalSpent]
  have hpos : 0 < raceState.promo.budgetTotal - totalSpent raceState := by
    norm_num [raceState, totalSpent]
  have hamt : raceState.promo.budgetTotal - totalSpent raceState = 2 := by
    norm_num [raceState, totalSpent]
  refine ⟨?_, by norm_num⟩
  unfold checkBudgetExhaustion
  rw [if_pos hgate]
  unfold processScheduledRefunds
  simp only [stopPromotionEarly_task]
  rw [if_pos (⟨rfl, by norm_num [raceState]⟩ :
    raceState.task.status = .scheduled ∧ raceState.task.refundDate ≤ 700)]
  have h2pos : 0 < (stopPromotionEarly 600 "budget_exhausted" raceState).task.originalBudget -
      totalSpent (stopPromotionEarly 600 "budget_exhausted" raceState) := by
    rw [stopPromotionEarly_task, stopPromotionEarly_spent]
    norm_num [raceState, totalSpent]
  rw [processRefund_ledger _ _ h2pos, stopPromotionEarly_ledger _ _ _ hpos,
    stopPromotionEarly_task, stopPromotionEarly_spent, stopPromotionEarly_author]
  have horig : raceState.task.originalBudget = 2 + totalSpent raceState := by
    norm_num [raceState, totalSpent]
  rw [hamt, horig]
  norm_num [raceState, totalSpent]

/-- C2 (amended): no refund path re-verifies status before crediting.  A
single sweep run credits at most once, but when the early-stop path fires
on an active promotion whose refund task is still scheduled and later
due, the refund sweep credits the same remaining amount again: exactly
two nonzero credits are appended across the two paths. -/
theorem double_credit_on_race (s : PromoState) (t1 t2 : Nat)
    (hactive : s.promo.status = .active)
    (hsched : s.task.status = .scheduled)
    (hdue : s.task.refundDate ≤ t2)
    (hexp : t1 < s.promo.expiresAt)
    (hspend : s.promo.budgetTotal * (98/100) ≤ totalSpent s)
    (hlt : totalSpent s < s.promo.budgetTotal)
    (horig : s.task.originalBudget = s.promo.budgetTotal) :
    (processScheduledRefunds t2 (checkBudgetExhaustion t1 s)).ledger = s.ledger ++
      [{ userId := s.promo.authorId, amount := s.promo.budgetTotal - totalSpent s
         entryType := "earn", referenceType := "promotion_refund" },
       { userId := s.promo.authorId, amount := s.promo.budgetTotal - totalSpent s
         entryType := "earn", referenceType := "promotion_refund" }] ∧
    0 < s.promo.budgetTotal - totalSpent s := by
  have hpos : 0 < s.promo.budgetTotal - totalSpent s := sub_pos.mpr hlt
  have hgate : s.promo.status = .active ∧ t1 < s.promo.expiresAt ∧
      s.promo.budgetTotal * (98/100) ≤ totalSpent s := ⟨hactive, hexp, hspend⟩
  refine ⟨?_, hpos⟩
  unfold checkBudgetExhaustion
  rw [if_pos hgate]
  unfold processScheduledRefunds
  simp only [stopPromotionEarly_task]
  rw [if_pos (⟨hsched, hdue⟩ : s.task.status = .scheduled ∧ s.task.refundDate ≤ t2)]
  have h2pos : 0 < (stopPromotionEarly t1 "budget_exhausted" s).task.originalBudget -
      totalSpent (stopPromotionEarly t1 "budget_exhausted" s) := by
    rw [stopPromotionEarly_task, stopPromotionEarly_spent, horig]
    exact hpos
  rw [processRefund_ledger _ _ h2pos, stopPromotionEarly_ledger _ _ _ hpos,
    stopPromotionEarly_task, stopPromotionEarly_spent, stopPromotionEarly_author, horig,
    List.append_assoc]
  rfl

/-- C2 amended-claim witness at the concrete race state. -/
theorem double_credit_on_race_witness :
    raceState.promo.status = .active ∧
    raceState.task.status = .scheduled ∧
    raceState.task.refundDate ≤ 700 ∧
    600 < raceState.promo.expiresAt ∧
    raceState.promo.budgetTotal * (98/100) ≤ totalSpent raceState ∧
    totalSpent raceState < raceState.promo.budgetTotal ∧
    raceState.task.originalBudget = raceState.promo.budgetTotal ∧
    ((processScheduledRefunds 700 (checkBudgetExhaustion 600 raceState)).ledger =
        raceState.ledger ++
      [{ userId := raceState.promo.authorId
         amount := raceState.promo.budgetTotal - totalSpent raceState
         entryType := "earn", referenceType := "promotion_refund" },
       { userId := raceState.promo.authorId
         amount := raceState.promo.budgetTotal - totalSpent raceState
         entryType := "earn", referenceType := "promotion_refund" }] ∧
      0 < raceState.promo.budgetTotal - totalSpent raceState) :=
  ⟨rfl, rfl, by norm_num [raceState], by norm_num [raceState],
    by norm_num [raceState, totalSpent], by norm_num [raceState, totalSpent], rfl,
    double_credit_on_race raceState 600 700 rfl rfl (by norm_num [raceState])
      (by norm_num [raceState]) (by norm_num [raceState, totalSpent])
      (by norm_num [raceState, totalSpent]) rfl⟩

/-! ## C3 -/

/-- C3: the scheduled refund sweep is idempotent.  For a due scheduled
task with unspent budget, one run appends exactly one nonzero credit to
the author and marks the task completed, and any further run is a no-op
(the task no longer matches the sweep's `status = 'scheduled'` filter). -/
theorem refund_sweep_idempotent (s : PromoState) (now : Nat)
    (hsched : s.task.status = .scheduled)
    (hdue : s.task.refundDate ≤ now)
    (hpos : 0 < s.task.originalBudget - totalSpent s) :
    (processScheduledRefunds now s).ledger = s.ledger ++
      [{ userId := s.promo.authorId, amount := s.task.originalBudget - totalSpent s
         entryType := "earn", referenceType := "promotion_refund" }] ∧
    (processScheduledRefunds now s).task.status = .completed ∧
    ∀ t, processScheduledRefunds t (processScheduledRefunds now s) =
      processScheduledRefunds now s := by
  have hgate : s.task.status = .scheduled ∧ s.task.refundDate ≤ now := ⟨hsched, hdue⟩
  unfold processScheduledRefunds
  rw [if_pos hgate]
  refine ⟨processRefund_ledger now s hpos, processRefund_task_status now s, ?_⟩
  intro t
  have hns : ¬ ((processRefund now s).task.status = .scheduled ∧
      (processRefund now s).task.refundDate ≤ t) := by
    simp [processRefund_task_status]
  rw [if_neg hns]

/-- C3 witness: a due task with 60 of 100 unspent. -/
theorem refund_sweep_idempotent_witness :
    dueState.task.status = .scheduled ∧
    dueState.task.refundDate ≤ 60 ∧
    0 < dueState.task.originalBudget - totalSpent dueState ∧
    ((processScheduledRefunds 60 dueState).ledger = dueState.ledger ++
      [{ userId := dueState.promo.authorId
         amount := dueState.task.originalBudget - totalSpent dueState
         entryType := "earn", referenceType := "promotion_refund" }] ∧
    (processScheduledRefunds 60 dueState).task.status = .completed ∧
    ∀ t, processScheduledRefunds t (processScheduledRefunds 60 dueState) =
      processScheduledRefunds 60 dueState) :=
  ⟨rfl, by norm_num [dueState], by norm_num [dueState, totalSpent],
    refund_sweep_idempotent dueState 60 rfl (by norm_num [dueState])
      (by norm_num [dueState, totalSpent])⟩

/-! ## C10 -/

/-- With no target users the sampled violation list is empty and the rate
is `0 / min(0, 100) = NaN`, which fails `< 0.2`. -/
theorem checkFrequencyLimits_nil (store : Store) : checkFrequencyLimits store [] = false := by
  norm_num [checkFrequencyLimits]

/-- C10: a promotion of content quality at least 40, checked against an
empty target-user list, is rejected with `frequency_limit_exceeded`: the
empty sample makes the violation rate `0/0 = NaN`, the `< 0.2` test
fails, and the frequency gate reports failure rather than passing
vacuously. -/
theorem empty_targets_frequency_rejected (store : Store) (now : Nat) (p : ProtectInput)
    (h : 40 ≤ checkContentQuality store now p.postId) :
    (protectUserExperience store now [p] []).approvedPromotions = [] ∧
    (protectUserExperience store now [p] []).rejectedPromotions =
      [(p, { approved := false, safetyScore := 0
             rejectionReason := some "frequency_limit_exceeded", constraints := none })] := by
  have hq : ¬ (checkContentQuality store now p.postId < 40) := not_lt.mpr h
  have hres : checkPromotionSafety store now p [] =
      { approved := false, safetyScore := 0
        rejectionReason := some "frequency_limit_exceeded", constraints := none } := by
    unfold checkPromotionSafety
    rw [if_neg hq, checkFrequencyLimits_nil]
    rfl
  unfold protectUserExperience
  simp [hres]

/-- C10 witness at a store whose post scores 85. -/
theorem empty_targets_frequency_rejected_witness :
    40 ≤ checkContentQuality goodPostStore 0
      (ProtectInput.mk (some "post1") (some "a")).postId ∧
    ((protectUserExperience goodPostStore 0 [ProtectInput.mk (some "post1") (some "a")]
        []).approvedPromotions = [] ∧
      (protectUserExperience goodPostStore 0 [ProtectInput.mk (some "post1") (some "a")]
        []).rejectedPromotions =
      [(ProtectInput.mk (some "post1") (some "a"),
        { approved := false, safetyScore := 0
          rejectionReason := some "frequency_limit_exceeded", constraints := none })]) :=
  ⟨by norm_num [checkContentQuality, Store.postLookup, goodPostStore, min_def, max_def],
    empty_targets_frequency_rejected goodPostStore 0 (ProtectInput.mk (some "post1") (some "a"))
      (by norm_num [checkContentQuality, Store.postLookup, goodPostStore, min_def, max_def])⟩

/-! ## Record-building lemmas -/

/-- Assigning a fresh key appends it. -/
theorem rset_of_not_mem {κ α : Type} [DecidableEq κ] (m : AList κ α) (k : κ) (v : α)
    (h : k ∉ m.map Prod.fst) : rset m k v = m ++ [(k, v)] := by
  induction m with
  | nil => rfl
  | cons p rest ih =>
      obtain ⟨k0, v0⟩ := p
      simp only [List.map_cons, List.mem_cons, not_or] at h
      have hne : ¬ (k0 = k) := fun he => h.1 he.symm
      simp only [rset, if_neg hne, List.cons_append, List.cons.injEq, true_and]
      exact ih h.2

/-- Folding assignments of pairwise-fresh, mutually distinct keys appends
them all in order. -/
theorem foldl_rset_nodup {κ α : Type} [DecidableEq κ] (l : AList κ α) :
    ∀ m : AList κ α, (∀ k ∈ l.map Prod.fst, k ∉ m.map Prod.fst) →
      (l.map Prod.fst).Nodup →
      l.foldl (fun acc p => rset acc p.1 p.2) m = m ++ l := by
  induction l with
  | nil => intro m _ _; simp
  | cons p rest ih =>
      intro m hdisj hnd
      obtain ⟨k, v⟩ := p
      simp only [List.map_cons, List.nodup_cons] at hnd
      simp only [List.foldl_cons]
      rw [rset_of_not_mem m k v (hdisj k (by simp))]
      rw [ih (m ++ [(k, v)]) ?_ hnd.2]
      · simp
      · intro k2 hk2
        simp only [List.map_append, List.map_cons, List.map_nil, List.mem_append,
          List.mem_singleton, not_or]
        refine ⟨hdisj k2 (by simp [hk2]), ?_⟩
        intro hkk
        exact hnd.1 (hkk ▸ hk2)

/-- Every member of an assignment result is the new pair or an old one. -/
theorem mem_rset {κ α : Type} [DecidableEq κ] {x : κ × α} (m : AList κ α) (k : κ) (v : α)
    (hx : x ∈ rset m k v) : x = (k, v) ∨ x ∈ m := by
  induction m with
  | nil => simpa [rset] using hx
  | cons p rest ih =>
      obtain ⟨k0, v0⟩ := p
      by_cases h : k0 = k
      · simp only [rset, if_pos h, List.mem_cons] at hx
        rcases hx with h1 | h2
        · exact Or.inl h1
        · exact Or.inr (List.mem_cons_of_mem _ h2)
      · simp only [rset, if_neg h, List.mem_cons] at hx
        rcases hx with h1 | h2
        · exact Or.inr (by simp [h1])
        · rcases ih h2 with h3 | h4
          · exact Or.inl h3
          · exact Or.inr (List.mem_cons_of_mem _ h4)

/-! ## C4 -/

/-- Every tier's ROI is strictly positive. -/
theorem levelROI_pos (w : WealthLevel) : 0 < levelROI w := by
  cases w <;> norm_num [levelROI, conversionRate, averageValue, calculateAverageCost]

/-- For distinct tiers the recommended allocation record is exactly the
proportional-division list. -/
theorem recommendedAllocation_eq (totalBudget : ℚ) (tiers : List WealthLevel)
    (ea : AList String (Option ℚ)) (hnd : tiers.Nodup) :
    (calculateBudgetOptimization totalBudget tiers ea).recommendedAllocation =
      tiers.map (fun w => (w, levelROI w / (tiers.map levelROI).sum * totalBudget)) := by
  unfold calculateBudgetOptimization
  simp only [List.map_map]
  rw [foldl_rset_nodup _ [] (by simp) ?_]
  · simp only [List.nil_append]
    rfl
  · simpa [List.map_map, Function.comp_def] using hnd

/-- C4 counterexample: with the duplicate tier list `[whale, whale]` the
record assignments collapse onto one key and the returned allocations sum
to 50, not the requested 100 — the claimed exact-sum property fails, and
no renormalization/remainder step exists to repair it. -/
theorem duplicate_tiers_sum_shortfall :
    (rvalues (calculateBudgetOptimization 100 [.whale, .whale]
      []).recommendedAllocation).sum = 50 ∧ (50 : ℚ) ≠ 100 := by
  constructor
  · norm_num [calculateBudgetOptimization, levelROI, conversionRate, averageValue,
      calculateAverageCost, rset, rvalues]
  · norm_num

/-- C4 (amended): for every total budget, every non-empty list of
pairwise-distinct target wealth tiers, and every expected-actions input,
the per-tier allocations returned by `calculateBudgetOptimization` sum
exactly to the requested total, each tier's share proportional to its
ROI `(conversionRate × averageValue) / averageCost`; the code performs
plain proportional division (exact in rational arithmetic) with no
renormalization or remainder-assignment step. -/
theorem allocation_sum_eq_total (totalBudget : ℚ) (tiers : List WealthLevel)
    (ea : AList String (Option ℚ)) (hne : tiers ≠ []) (hnd : tiers.Nodup) :
    (rvalues (calculateBudgetOptimization totalBudget tiers
      ea).recommendedAllocation).sum = totalBudget := by
  rw [recommendedAllocation_eq totalBudget tiers ea hnd]
  unfold rvalues
  simp only [List.map_map, Function.comp_def]
  have hT : 0 < (tiers.map levelROI).sum := by
    apply List.sum_pos
    · intro x hx
      obtain ⟨w, -, rfl⟩ := List.mem_map.mp hx
      exact levelROI_pos w
    · simpa [List.map_eq_nil_iff] using hne
  simp only [div_mul_eq_mul_div, mul_div_assoc]
  rw [List.sum_map_mul_right, mul_comm, div_mul_cancel₀ _ hT.ne']

/-- C4 amended-claim witness over the singleton tier list `[whale]`. -/
theorem allocation_sum_eq_total_witness :
    ([WealthLevel.whale] ≠ []) ∧ ([WealthLevel.whale].Nodup) ∧
    (rvalues (calculateBudgetOptimization 100 [WealthLevel.whale]
      []).recommendedAllocation).sum = 100 :=
  ⟨by simp, by simp, allocation_sum_eq_total 100 [.whale] [] (by simp) (by simp)⟩

/-! ## C5 -/

/-- The one-key quality-discount record hits when looked up with the tier
it was built from. -/
theorem rget_qualityDiscounts_self (q : ℚ) :
    rget (calculateQualityDiscounts q) (getQualityTier q) =
      some (qualityDiscountOf (getQualityTier q)) := by
  unfold calculateQualityDiscounts getQualityTier
  split_ifs <;> simp [rget, qualityDiscountOf]

/-- All base prices are positive. -/
theorem basePrices_pos (a : ActionType) : 0 < basePrices a := by
  cases a <;> norm_num [basePrices]

/-- All wealth multipliers are positive. -/
theorem wealthMultipliers_pos (w : WealthLevel) : 0 < wealthMultipliers w := by
  cases w <;> norm_num [wealthMultipliers]

/-- All quality discounts are positive. -/
theorem qualityDiscountOf_pos (t : String) : 0 < qualityDiscountOf t := by
  unfold qualityDiscountOf
  split_ifs <;> norm_num

/-- All relevance discounts are positive. -/
theorem calculateRelevanceDiscount_pos (r : ℚ) : 0 < calculateRelevanceDiscount r := by
  unfold calculateRelevanceDiscount
  split_ifs <;> norm_num

/-- Every value stored in the demand-multiplier record is positive. -/
theorem demand_values_pos (t : Nat) (wk : Bool) (r : String) :
    ∀ x ∈ calculateDemandMultipliers t wk r, (0:ℚ) < x.2 := by
  intro x hx
  unfold calculateDemandMultipliers at hx
  rcases mem_rset _ _ _ hx with h | hx
  · rw [h]
    unfold regionMultiplier
    split_ifs <;> norm_num
  rcases mem_rset _ _ _ hx with h | hx
  · rw [h]
    split <;> norm_num
  rcases mem_rset _ _ _ hx with h | hx
  · rw [h]
    split <;> norm_num
  rcases mem_rset _ _ _ hx with h | hx
  · rw [h]
    split <;> norm_num
  · simp at hx

/-- A lookup-or-one over a record of positive values is positive. -/
theorem jsOrOne_rget_pos (m : AList String ℚ) (k : String)
    (hall : ∀ x ∈ m, (0:ℚ) < x.2) : 0 < jsOrOne (rget m k) := by
  induction m with
  | nil => norm_num [rget, jsOrOne]
  | cons p rest ih =>
      obtain ⟨k0, v0⟩ := p
      by_cases h : k0 = k
      · have hv : (0:ℚ) < v0 := hall (k0, v0) (by simp)
        simpa [rget, h, jsOrOne, hv.ne'] using hv
      · simp only [rget, if_neg h]
        exact ih (fun x hx => hall x (List.mem_cons_of_mem _ hx))

/-- C5 counterexample: a strategy built for content quality 95 carries
only the `premium` discount key; pricing an action against content
quality 50 (tier `low`) misses the lookup, the JS product is `NaN`, and
the returned price is not an integer at all, let alone ≥ 1. -/
theorem quality_tier_mismatch_undefined_price :
    calculateActionPrice .view (TargetUser.mk "u" .plankton 50 (1/2) 1 none)
      (calculateDynamicPricing [] 95 12 "CN" false) 50 = none := by
  norm_num [calculateActionPrice, calculateDynamicPricing, calculateQualityDiscounts,
    getQualityTier, rget]
  rw [if_neg (by decide : ¬("premium" = "low"))]

/-- C5 (amended): whenever the content quality passed to
`calculateActionPrice` falls in the same quality tier as the one the
strategy was built from (in particular whenever the two coincide, as in
the optimizer), the price equals
`ceil(basePrice × wealthMultiplier × demandMultiplier × qualityDiscount ×
relevanceDiscount)` and is an integer ≥ 1 — the ceiling of the positive
product never yields zero. -/
theorem calculateActionPrice_pos (action : ActionType) (u : TargetUser)
    (wl : List WealthLevel) (q1 q2 : ℚ) (hour : Nat) (region : String) (wk : Bool)
    (h : getQualityTier q2 = getQualityTier q1) :
    calculateActionPrice action u (calculateDynamicPricing wl q1 hour region wk) q2 =
      some (Int.ceil (basePrices action * wealthMultipliers u.wealthLevel *
        jsOrOne (rget (calculateDemandMultipliers hour wk region) (userCountryKey u)) *
        qualityDiscountOf (getQualityTier q1) *
        calculateRelevanceDiscount u.relevanceScore)) ∧
    1 ≤ Int.ceil (basePrices action * wealthMultipliers u.wealthLevel *
        jsOrOne (rget (calculateDemandMultipliers hour wk region) (userCountryKey u)) *
        qualityDiscountOf (getQualityTier q1) *
        calculateRelevanceDiscount u.relevanceScore) := by
  have hprod : 0 < basePrices action * wealthMultipliers u.wealthLevel *
      jsOrOne (rget (calculateDemandMultipliers hour wk region) (userCountryKey u)) *
      qualityDiscountOf (getQualityTier q1) *
      calculateRelevanceDiscount u.relevanceScore := by
    have h1 := basePrices_pos action
    have h2 := wealthMultipliers_pos u.wealthLevel
    have h3 := jsOrOne_rget_pos (calculateDemandMultipliers hour wk region)
      (userCountryKey u) (demand_values_pos hour wk region)
    have h4 := qualityDiscountOf_pos (getQualityTier q1)
    have h5 := calculateRelevanceDiscount_pos u.relevanceScore
    exact mul_pos (mul_pos (mul_pos (mul_pos h1 h2) h3) h4) h5
  constructor
  · simp only [calculateActionPrice, calculateDynamicPricing, h, rget_qualityDiscounts_self]
  · have hc := Int.ceil_pos.mpr hprod
    omega

/-- C5 amended-claim witness: a plankton viewer priced for quality 70. -/
theorem calculateActionPrice_pos_witness :
    getQualityTier 70 = getQualityTier 70 ∧
    (calculateActionPrice .view (TargetUser.mk "u" .plankton 50 (1/2) 1 none)
        (calculateDynamicPricing [] 70 12 "CN" false) 70 =
      some (Int.ceil (basePrices .view *
        wealthMultipliers (TargetUser.mk "u" .plankton 50 (1/2) 1 none).wealthLevel *
        jsOrOne (rget (calculateDemandMultipliers 12 false "CN")
          (userCountryKey (TargetUser.mk "u" .plankton 50 (1/2) 1 none))) *
        qualityDiscountOf (getQualityTier 70) *
        calculateRelevanceDiscount
          (TargetUser.mk "u" .plankton 50 (1/2) 1 none).relevanceScore)) ∧
      1 ≤ Int.ceil (basePrices .view *
        wealthMultipliers (TargetUser.mk "u" .plankton 50 (1/2) 1 none).wealthLevel *
        jsOrOne (rget (calculateDemandMultipliers 12 false "CN")
          (userCountryKey (TargetUser.mk "u" .plankton 50 (1/2) 1 none))) *
        qualityDiscountOf (getQualityTier 70) *
        calculateRelevanceDiscount
          (TargetUser.mk "u" .plankton 50 (1/2) 1 none).relevanceScore)) :=
  ⟨rfl, calculateActionPrice_pos .view (TargetUser.mk "u" .plankton 50 (1/2) 1 none)
    [] 70 70 12 "CN" false rfl⟩

/-! ## C6 -/

/-- C6: the creation path persists nothing at all: `startPromotionExecution`
starts with `this.generatePromotionId()`, a method `PromotionController`
never defines, so the call throws before `recordPromotionRequest`,
`initiateDelivery` or `scheduleRefundTask` can run — for every request and
store, no promotion row and no RefundTask is created (in particular not
the claimed one task with `refundDate = createdAt + min(duration, 7)`
days); and even the unreachable `scheduleRefundTask` call is made with the
constant 7 days, not `min(duration, 7)`. -/
theorem creation_path_always_throws :
    (∀ (request : PromotionRequest) (store : Store) (now : Nat),
      startPromotionExecution request store now = none) ∧
    (∀ (request : PromotionRequest) (store : Store) (now : Nat),
      createPromotion request store now = none) ∧
    (∀ (pid : String) (budget : ℚ) (now : Nat),
      (scheduleRefundTask pid budget 7 now).refundDate = now + 7 * 86400000) :=
  ⟨fun _ _ _ => rfl, fun _ _ _ => rfl, fun _ _ _ => rfl⟩

/-! ## C7 -/

/-- `calculateUserValue` is undefined (NaN) on every scored row: the
camelCase `wealthLevel` read misses. -/
theorem calculateUserValue_none (u : ScoredRow) : calculateUserValue u = none := rfl

/-- With every comparison NaN, stable insertion leaves the head in place. -/
theorem sortInsert_cons (x : ScoredRow) (ys : List ScoredRow) :
    sortInsert x ys = x :: ys := by
  cases ys with
  | nil => rfl
  | cons y ys =>
      have hc : cmpAfter x y = false := by
        simp [cmpAfter, userValueCmp, calculateUserValue_none]
      simp [sortInsert, hc]

/-- The sort never reorders anything: every comparator call is NaN. -/
theorem sortByUserValue_id (l : List ScoredRow) : sortByUserValue l = l := by
  induction l with
  | nil => rfl
  | cons x xs ih => simp [sortByUserValue, ih, sortInsert_cons]

/-- C7 counterexample: two candidates whose composite values (as the spec
defines them) differ strictly are returned in query order with the
smaller-valued candidate first — the output is not sorted descending by
relevance × engagement × influence × wealth-tier value (nor tie-broken by
userId). -/
theorem output_not_sorted_by_composite :
    findTargetsWithinFramework tieContent [lowCand, highCand] =
      [scoreRow tieContent lowCand, scoreRow tieContent highCand] ∧
    intendedComposite (scoreRow tieContent lowCand) <
      intendedComposite (scoreRow tieContent highCand) := by
  constructor
  · unfold findTargetsWithinFramework
    rw [sortByUserValue_id]
    rfl
  · norm_num [intendedComposite, scoreRow, calculateRelevanceScore, calculateWealthMatch,
      calculateGeoRelevance, calculateActivityMatch, predictEngagementProbability,
      targetingContentQuality, calculateInfluenceMultiplier, getWealthLevelValue,
      tieContent, lowCand, highCand, min_def, max_def, truthyStr,
      assessContentComplexity, getUserSophistication,
      show ("" : String).length = 0 from rfl]

/-- C7 (amended): `findTargetsWithinFramework` returns at most 1000 users
and returns them in the candidate-query order: the comparator
`calculateUserValue(b) − calculateUserValue(a)` evaluates to NaN for
every pair (the camelCase `wealthLevel` property it reads is absent from
the snake_case row), a NaN comparison keeps the stable order, so no
reordering by composite value — and no userId tie-break — takes place. -/
theorem findTargets_preserves_query_order (content : Content) (candidates : List Candidate) :
    findTargetsWithinFramework content candidates =
      (candidates.map (scoreRow content)).take 1000 ∧
    (findTargetsWithinFramework content candidates).length ≤ 1000 := by
  have h : findTargetsWithinFramework content candidates =
      (candidates.map (scoreRow content)).take 1000 := by
    unfold findTargetsWithinFramework
    rw [sortByUserValue_id]
  refine ⟨h, ?_⟩
  rw [h]
  exact List.length_take_le _ _

/-! ## C8 -/

/-- Folding the audience wealth sum from an already-NaN accumulator stays
NaN. -/
theorem foldl_wealth_none (l : List ScoredRow) :
    l.foldl (fun acc x => acc.bind (fun a => (wealthValues4 x.wealthLevelField).map (a + ·)))
      none = none := by
  induction l with
  | nil => rfl
  | cons x xs ih => simpa using ih

/-- C8: for every nonempty target list the audience wealth-value lookup
misses (the scored row has no camelCase `wealthLevel`, and the table's
keys `Plankton`/`Turtle`/`Dolphin`/`Whale` match none of the nine tier
strings anyway), so `calculateAudienceBusinessValue` — and with it the
plan's `expectedROI` — is NaN rather than a well-defined number. -/
theorem audience_value_undefined (u : ScoredRow) (rest : List ScoredRow) :
    calculateAudienceBusinessValue (u :: rest) = none ∧
    ∀ (log2 : ℚ → ℚ) (content : Content) (bo : BudgetOptimization),
      (predictPromotionOutcome log2 content (u :: rest) bo).expectedROI = none := by
  have hsum : ((u :: rest).foldl
      (fun acc x => acc.bind (fun a => (wealthValues4 x.wealthLevelField).map (a + ·)))
      (some 0) : Option ℚ) = none := by
    simp only [List.foldl_cons]
    have hfirst : ((some (0:ℚ)).bind
        (fun a => (wealthValues4 u.wealthLevelField).map (a + ·))) = none := rfl
    rw [hfirst]
    exact foldl_wealth_none rest
  have hav : calculateAudienceBusinessValue (u :: rest) = none := by
    unfold calculateAudienceBusinessValue
    rw [hsum]
    rfl
  refine ⟨hav, ?_⟩
  intro log2 content bo
  unfold predictPromotionOutcome
  simp only [calculateExpectedBusinessValue, hav, Option.map_none]
  rfl

/-! ## C9 -/

/-- C9 counterexample: identical request and store, two runs differing
only in the `Math.random()` draw — the returned plans differ (their
`promotionId` fields are `promo_0_aa` and `promo_0_bb`). -/
theorem optimizer_not_env_free :
    optimizePromotionWithinFramework (fun _ => 0) contentStore
      (Env.mk 0 "aa" 12 false) promoReq ≠
    optimizePromotionWithinFramework (fun _ => 0) contentStore
      (Env.mk 0 "bb" 12 false) promoReq := by
  intro h
  have h2 := congrArg
    (fun r : Except String PromotionPlan =>
      match r with
      | .ok p => p.promotionId
      | .error e => e) h
  exact absurd h2 (by decide)

/-- C9 (amended): the optimizer is deterministic given request, store
snapshot, clock reading and random draw; every plan field except
`promotionId` (clock + random) and `schedule.startTime`/`endTime` (clock)
is independent of clock and randomness — two runs on identical request
and store agree on all of them. -/
theorem optimizer_deterministic_modulo_env (log2 : ℚ → ℚ) (store : Store)
    (req : PromotionRequest) (e1 e2 : Env) :
    (optimizePromotionWithinFramework log2 store e1 req).map stripEnvFields =
    (optimizePromotionWithinFramework log2 store e2 req).map stripEnvFields := by
  have hreport : ∀ (store2 : Store) (now : Nat) (ps : List ProtectInput)
      (us : List ScoredRow), (protectUserExperience store2 now ps us).protectionReport =
      generateProtectionReport [] [] := fun _ _ _ _ => rfl
  have hbase : ∀ (wl : List WealthLevel) (q : ℚ) (t : Nat) (r : String) (w : Bool),
      (calculateDynamicPricing wl q t r w).basePrices = basePrices := fun _ _ _ _ _ => rfl
  have htime : ∀ (us : List ScoredRow) (d : Nat) (ba : AList WealthLevel ℚ) (now : Nat),
      (createOptimalSchedule us d ba now).timeAllocations =
        distributeByActivity ba (analyzeUserActivityPatterns us) := fun _ _ _ _ => rfl
  have hdaily : ∀ (us : List ScoredRow) (d : Nat) (ba : AList WealthLevel ℚ) (now : Nat),
      (createOptimalSchedule us d ba now).dailySchedule =
        (List.range d).map (fun day =>
          { day := day
            budget := (rvalues ba).sum / (d : ℚ)
            targets := selectDayTargets us day d
            hourlyDistribution := distributeByActivity ba (analyzeUserActivityPatterns us) }) :=
    fun _ _ _ _ => rfl
  unfold optimizePromotionWithinFramework
  cases store.getContent req.postId with
  | none => rfl
  | some content =>
      simp only [Except.map, stripEnvFields, hreport, hbase, htime, hdaily]

end Coco

